import Mathlib

/-!
Verification of the GIF-to-WebM conversion core of
piosteiner/webapp-file-converter.

The development shallowly embeds, from the source:
  * src/server/gif_to_webm.py — `calculate_scale_filter`, the duration-limit
    computation, the CRF quality-search loop and `convert_gif_to_webm`;
  * src/artifacts/server.py — the `/api/convert` endpoint `convert_gif`
    (parameter validation, call into the converter, response building,
    failure-path cleanup) and the inline compression-ratio expression.

External subprocesses (ffmpeg / ffprobe) are stubbed as capability
functions supplied through an environment record, exactly as the spec
treats them (`probe`, `encode`).  Scratch storage is an explicit
association list from path to file size, threaded through the functions
that the Python code lets mutate the real filesystem.
-/

namespace GifWebm

/-! ## Scratch filesystem model

The Python code touches the filesystem through `file.save`, ffmpeg writing
`output_path`, `os.path.exists`, `os.path.getsize` and `os.remove`.  We
model scratch storage as an association list from path to file size. -/

/-- Scratch storage: a finite map from path to file size in bytes. -/
abbrev Fs := List (String × Nat)

/-- Size of the file at path `p`, `none` when no such file exists
(`os.path.exists` / `os.path.getsize`). -/
def fsGet (p : String) : Fs → Option Nat
  | [] => none
  | e :: rest => if e.1 == p then some e.2 else fsGet p rest

/-- Delete the file at path `p` if present (`os.remove`; removing an absent
path is modelled as a no-op where the Python caller swallows the error). -/
def fsRemove (p : String) : Fs → Fs
  | [] => []
  | e :: rest => if e.1 == p then fsRemove p rest else e :: fsRemove p rest

/-- Create or overwrite the file at path `p` with size `sz` (ffmpeg is run
with `-y`, so an existing file at the output path is overwritten). -/
def fsWrite (p : String) (sz : Nat) (fs : Fs) : Fs :=
  (p, sz) :: fsRemove p fs

/-! ## Probe data (ffprobe output shape)

`get_video_info` (src/server/gif_to_webm.py lines 25–35) returns the parsed
ffprobe JSON, or `None` on a subprocess or JSON-decode error.  The fields
`convert_gif_to_webm` reads are the stream list (with `codec_type`,
`width`, `height`, `r_frame_rate`) and `format.duration`.  `r_frame_rate`
is a fraction string which the Python code turns into a number with
`eval`; we model it as the rational it denotes.  Durations are rationals. -/

/-- One entry of the probed `streams` list. -/
structure StreamInfo where
  codec_type : String
  width : Nat
  height : Nat
  r_frame_rate : Rat
deriving Repr, DecidableEq

/-- The probed container information used by the converter. -/
structure MediaInfo where
  streams : List StreamInfo
  duration : Rat
deriving Repr, DecidableEq

/-! ## FilterPlanner: `calculate_scale_filter` (lines 37–60)

Faithful to the source: `emoji` returns a fixed scale-and-pad filter
string; any other mode takes the sticker branch, which first evaluates the
(unused) expression `aspect_ratio = width / height` — a Python
`ZeroDivisionError` when `height = 0` — and then picks one of two scale
strings.  A raised Python exception is modelled as `Except.error`. -/

/-- The fixed emoji filter string emitted at line 50 of gif_to_webm.py. -/
def emoji_filter : String :=
  "scale=100:100:force_original_aspect_ratio=decrease,pad=100:100:(ow-iw)/2:(oh-ih)/2:black@0"

/-- Embedding of `calculate_scale_filter` (src/server/gif_to_webm.py 37–60). -/
def calculate_scale_filter (width height : Nat) (mode : String) :
    Except String String :=
  if mode == "emoji" then
    .ok emoji_filter
  else
    -- line 53: `aspect_ratio = width / height` raises on height = 0
    if height == 0 then
      .error "ZeroDivisionError"
    else if width ≥ height then
      .ok "scale=512:-2"
    else
      .ok "scale=-2:512"

/-! ## Duration cap (lines 116–122) -/

/-- Embedding of the duration-limit computation: preview keeps the full
source duration, every other mode is capped at 3 seconds. -/
def duration_limit (mode : String) (duration : Rat) : Rat :=
  if mode == "preview" then duration else min duration 3

/-! ## QualitySearch: the CRF loop (lines 132–195)

The loop body runs ffmpeg at the current CRF.  Per attempt the observable
outcomes in the source are: non-zero return code or raised exception
(`continue`), return code zero but no output file (falls through the
`os.path.exists` check, loop continues), or an output file of some size.
All attempts write the same caller-supplied `output_path` (ffmpeg `-y`). -/

/-- Outcome of one stubbed `encode` attempt at a given CRF. -/
inductive EncAttempt where
  /-- ffmpeg exited non-zero, or `subprocess.run` raised (lines 160–162,
  190–192); the loop continues with the next CRF. -/
  | err : EncAttempt
  /-- return code zero but no file at `output_path` (the line-165 existence
  check fails and the loop silently continues). -/
  | okNoFile : EncAttempt
  /-- return code zero and an output file of `size` bytes written at
  `output_path`. -/
  | ok (size : Nat) : EncAttempt
deriving Repr, DecidableEq

/-- Stubbed external capabilities of one `convert_gif_to_webm` call:
whether the input file exists, the ffprobe result for the input, and the
encoder outcome per CRF value. -/
structure Env where
  inputExists : Bool
  probe : Option MediaInfo
  enc : Nat → EncAttempt

/-- The fixed CRF sequence of line 134. -/
def crf_values : List Nat := [35, 40, 45, 50, 55, 60, 63]

/-- Result of the CRF search loop: the returned flag, the CRF at which the
loop returned `True` (mirrors the loop variable at the line-186 return),
the CRFs attempted in order (mirrors the per-iteration line-137 prints),
and the final scratch state. -/
structure LoopRes where
  success : Bool
  selected : Option Nat
  attempted : List Nat
  fs : Fs
deriving Repr, DecidableEq

/-- Embedding of the `for crf in crf_values` loop (lines 136–192).  On a
size within `max_size_bytes` the loop returns immediately; an oversized
artifact stays at `output_path` until the next attempt overwrites it. -/
def searchCrfs (enc : Nat → EncAttempt) (output_path : String)
    (max_size_bytes : Nat) : List Nat → Fs → LoopRes
  | [], fs => { success := false, selected := none, attempted := [], fs := fs }
  | c :: rest, fs =>
    match enc c with
    | .err =>
      let r := searchCrfs enc output_path max_size_bytes rest fs
      { r with attempted := c :: r.attempted }
    | .okNoFile =>
      let r := searchCrfs enc output_path max_size_bytes rest fs
      { r with attempted := c :: r.attempted }
    | .ok size =>
      let fs1 := fsWrite output_path size fs
      if size ≤ max_size_bytes then
        { success := true, selected := some c, attempted := [c], fs := fs1 }
      else
        let r := searchCrfs enc output_path max_size_bytes rest fs1
        { r with attempted := c :: r.attempted }

/-- Whether the stubbed encoder, at CRF `c`, produces an artifact whose
size is within `max_size_bytes` (the line-169 test, equality counting as
success). -/
def crfFits (enc : Nat → EncAttempt) (max_size_bytes c : Nat) : Bool :=
  match enc c with
  | .ok size => size ≤ max_size_bytes
  | _ => false

/-! ## `convert_gif_to_webm` (lines 62–195) -/

/-- Result of one `convert_gif_to_webm` call.  The Python function returns
only a bool; `selected`, `attempted`, `tParam` (the `-t` argument passed
to every ffmpeg invocation), `videoFilter` (the `-vf` argument) and `log`
(the diagnostic prints of the failure paths) expose, for the theorems,
what the source computes and prints along the way.  The success-path
output-verification prints (lines 171–184) are diagnostic-only and are
not modelled. -/
structure ConvResult where
  success : Bool
  selected : Option Nat
  attempted : List Nat
  tParam : Option Rat
  videoFilter : Option String
  fs : Fs
  log : List String
deriving Repr, DecidableEq

/-- Diagnostic printed at line 84 when ffprobe fails. -/
def msg_probe_fail (input_path : String) : String :=
  "Error: Could not get video information from " ++ input_path

/-- Diagnostic printed at line 95 when no stream has codec type video. -/
def msg_no_video (input_path : String) : String :=
  "Error: No video stream found in " ++ input_path

/-- Embedding of `convert_gif_to_webm` (src/server/gif_to_webm.py 62–195).
A `.error` result models a Python exception escaping the function (the
only source of one before the guarded loop is the `ZeroDivisionError` of
`calculate_scale_filter`); since it is raised before any encode attempt,
the scratch state at that point is the caller's `fs` unchanged. -/
def convert_gif_to_webm (env : Env) (input_path output_path mode : String)
    (max_size_kb : Nat) (fs : Fs) : Except String ConvResult :=
  if env.inputExists = false then
    .ok { success := false, selected := none, attempted := [], tParam := none,
          videoFilter := none, fs := fs,
          log := ["Error: Input file " ++ input_path ++ " does not exist."] }
  else
    match env.probe with
    | none =>
      .ok { success := false, selected := none, attempted := [], tParam := none,
            videoFilter := none, fs := fs, log := [msg_probe_fail input_path] }
    | some info =>
      match info.streams.find? (fun s => s.codec_type == "video") with
      | none =>
        .ok { success := false, selected := none, attempted := [], tParam := none,
              videoFilter := none, fs := fs, log := [msg_no_video input_path] }
      | some vs =>
        match calculate_scale_filter vs.width vs.height mode with
        | .error e => .error e
        | .ok scale_filter =>
          let dl := duration_limit mode info.duration
          -- lines 124–127: cap the frame rate at 30 only when above it
          let filters :=
            if vs.r_frame_rate > 30 then [scale_filter, "fps=30"]
            else [scale_filter]
          let video_filter := String.intercalate "," filters
          let max_size_bytes := max_size_kb * 1024
          let lr := searchCrfs env.enc output_path max_size_bytes crf_values fs
          if lr.success then
            .ok { success := true, selected := lr.selected,
                  attempted := lr.attempted, tParam := some dl,
                  videoFilter := some video_filter, fs := lr.fs, log := [] }
          else
            .ok { success := false, selected := lr.selected,
                  attempted := lr.attempted, tParam := some dl,
                  videoFilter := some video_filter, fs := lr.fs,
                  log := ["Could not create file under " ++
                          toString max_size_kb ++ " KB limit"] }

/-! ## Encoder filter semantics (modelled)

The strings `calculate_scale_filter` returns are interpreted by ffmpeg,
which is an external tool the repository only invokes.  To state what the
planned filters do to the picture we model the documented meaning of the
exact filter expressions the source emits: `scale=512:-2` / `scale=-2:512`
keep the given dimension at 512 and scale the other proportionally rounded
to an even integer (as the spec describes in section 4.2);
`scale=100:100:force_original_aspect_ratio=decrease` shrinks the 100 by
100 target box to the source aspect ratio — the option constrains the
box, not the image, so a source smaller than the box is scaled up to it
(the spec's downscale-only reading of this option is stated separately as
`fit_decrease_spec` and compared); `pad=100:100:(ow-iw)/2:(oh-ih)/2:
black@0` pads to a 100 by 100 canvas, centering the image, with the fully
transparent color black at alpha 0. -/

/-- Round a rational to the nearest integer, half away from zero upward. -/
def roundHalfUp (q : Rat) : Int := ⌊q + 1 / 2⌋

/-- Round a rational to the nearest even integer. -/
def roundEven (q : Rat) : Int := 2 * roundHalfUp (q / 2)

/-- Modelled from the spec: meaning of the two sticker-branch ffmpeg scale
expressions for a `width` by `height` source — the fixed side is 512, the
`-2` side is scaled proportionally and rounded to an even integer.  Any
other string is not a filter the sticker branch emits. -/
def apply_scale_filter (width height : Nat) (f : String) :
    Option (Int × Int) :=
  if f == "scale=512:-2" then
    some (512, roundEven ((512 * height : Rat) / width))
  else if f == "scale=-2:512" then
    some (roundEven ((512 * width : Rat) / height), 512)
  else
    none

/-- Documented encoder semantics of ffmpeg
`scale=100:100:force_original_aspect_ratio=decrease`: the specified 100 by
100 target dimensions are decreased as needed to keep the source aspect
ratio, so the scaled image fills the box in one dimension.  The option
constrains the target box, not the image: a source smaller than 100 by
100 is scaled up to the box. -/
def fit_decrease (width height : Nat) : Int × Int :=
  if height ≤ width then
    (100, roundHalfUp ((100 * height : Rat) / width))
  else
    (roundHalfUp ((100 * width : Rat) / height), 100)

/-- Modelled from the spec: the spec's reading of the emoji fitting —
"scale to fit within 100×100 preserving aspect ratio (downscale only,
never upscale beyond original)".  A source already inside the box keeps
its original dimensions; a larger source is downscaled to fit.  Stated for
comparison with `fit_decrease`, the encoder's actual behavior on the
filter string the source emits. -/
def fit_decrease_spec (width height : Nat) : Int × Int :=
  if width ≤ 100 ∧ height ≤ 100 then ((width : Int), (height : Int))
  else fit_decrease width height

/-- A padded output frame: canvas size, scaled image size, the offset of
the image inside the canvas, and the padding color. -/
structure PaddedFrame where
  canvasW : Int
  canvasH : Int
  imgW : Int
  imgH : Int
  offX : Int
  offY : Int
  padColor : String
deriving Repr, DecidableEq

/-- Documented encoder semantics of the exact emoji filter string the
source emits — the 100 by 100 target box is decreased to the source
aspect ratio (`fit_decrease`), then the scaled image is padded to a 100
by 100 canvas, centered, with the padding `black@0` (black at alpha 0,
i.e. fully transparent). -/
def apply_emoji_filter (f : String) (width height : Nat) :
    Option PaddedFrame :=
  if f == emoji_filter then
    let p := fit_decrease width height
    some { canvasW := 100, canvasH := 100, imgW := p.1, imgH := p.2,
           offX := (100 - p.1) / 2, offY := (100 - p.2) / 2,
           padColor := "black@0" }
  else
    none

/-! ## The `/api/convert` endpoint (src/artifacts/server.py 463–559)

The endpoint validates the request, stages the upload into scratch
storage, calls `convert_gif_to_webm`, and builds a JSON response.  The
bare `except` of lines 557–559 turns any escaped Python exception into a
500 response.  Response metadata that merely echoes probe output
(original or output width, height, duration) is not modelled; the fields
kept are the ones the claims are about. -/

/-- ASCII lowering of one character (the Python `str.lower` call is only
compared against the ASCII extension gif, so non-ASCII lowering cannot
change the outcome). -/
def lowerChar (c : Char) : Char :=
  if c.isUpper then Char.ofNat (c.toNat + 32) else c

/-- The characters after the last dot of a name, or `none` when the name
has no dot (`'.' in filename` and `filename.rsplit('.', 1)[1]`). -/
def after_last_dot : List Char → Option (List Char)
  | [] => none
  | c :: rest =>
    match after_last_dot rest with
    | some e => some e
    | none => if c == '.' then some rest else none

/-- Embedding of `allowed_file` (src/artifacts/server.py): the name has a
dot and the part after the last dot, lowercased, is gif. -/
def allowed_file (filename : String) : Bool :=
  match after_last_dot filename.data with
  | none => false
  | some ext => ext.map lowerChar == ['g', 'i', 'f']

/-- Python `round(x, 1)`: one decimal digit.  Python rounds floats half to
even; the tie-breaking never matters to the claims, so we round half up. -/
def round1 (q : Rat) : Rat := (⌊q * 10 + 1 / 2⌋ : Rat) / 10

/-- Embedding of the inline diagnostic-ratio expression of
src/artifacts/server.py line 523 (same expression at src/server.py line
173): `round((1 - output_size / original_size) * 100, 1)`.  Python raises
`ZeroDivisionError` when `original_size` is zero; the raise is modelled
as `Except.error`. -/
def compression_ratio (output_size original_size : Nat) :
    Except String Rat :=
  if original_size == 0 then
    .error "ZeroDivisionError"
  else
    .ok (round1 ((1 - (output_size : Rat) / (original_size : Rat)) * 100))

/-- The scratch directory name (module constant `UPLOAD_FOLDER`). -/
def UPLOAD_FOLDER : String := "temp_uploads"

/-- Module constant `MAX_FILE_SIZE`: 100 MB. -/
def MAX_FILE_SIZE : Nat := 100 * 1024 * 1024

/-- The parsed form fields of one request.  The claims quantify over
requests whose `crf` field parses as an integer, so the fields carry the
already-parsed values (an unparsable `max_size` or `crf` makes `int()`
raise, which the bare `except` maps to a 500 response — a path outside
every claim). -/
structure ReqForm where
  max_size : Nat
  mode : String
  crf : Int
deriving Repr, DecidableEq

/-- Request-independent context of one endpoint call: the startup checks,
the multipart file (its presence, client filename, declared content
length, and the size it has once saved), the per-request unique id, the
werkzeug-sanitized filename, and the converter's stubbed capabilities. -/
structure SrvEnv where
  has_converter : Bool
  ffmpeg_ok : Bool
  file_present : Bool
  filename : String
  content_length : Option Nat
  file_id : String
  secure_name : String
  saved_size : Nat
  conv : Env

/-- The endpoint's observable HTTP result: an error body with its status
code, or the JSON success payload (the modelled fields). -/
inductive Response where
  | err (msg : String) (status : Nat) : Response
  | ok (original_size_bytes output_size_bytes : Nat)
       (compression_ratio : Rat) (mode : String) (max_size_kb : Nat)
       (download_id : String) : Response
deriving Repr, DecidableEq

/-- Failure-path cleanup of src/artifacts/server.py lines 550–554: inside
one `try`, remove the input, then remove the output if it exists; a raise
on the input removal (input absent) skips the output removal. -/
def convertFailCleanup (input_path output_path : String) (fs : Fs) : Fs :=
  match fsGet input_path fs with
  | none => fs
  | some _ => fsRemove output_path (fsRemove input_path fs)

/-- Embedding of the `/api/convert` endpoint `convert_gif`
(src/artifacts/server.py 463–559).  Returns the response and the final
scratch state. -/
def convert_gif (senv : SrvEnv) (form : ReqForm) (fs : Fs) :
    Response × Fs :=
  if senv.has_converter = false then
    (.err "Conversion module not available" 500, fs)
  else if senv.ffmpeg_ok = false then
    (.err "FFmpeg not found on server" 500, fs)
  else if senv.file_present = false then
    (.err "No file provided" 400, fs)
  else if senv.filename == "" then
    (.err "No file selected" 400, fs)
  else if allowed_file senv.filename = false then
    (.err "Only GIF files are allowed" 400, fs)
  else if (match senv.content_length with
           | none => true
           | some n => decide (n > MAX_FILE_SIZE)) then
    (.err "File too large. Maximum size: 100MB" 400, fs)
  else if form.max_size < 64 || form.max_size > 2048 then
    (.err "Invalid max_size. Must be between 64 and 2048 KB" 400, fs)
  else if (["sticker", "emoji", "preview"].contains form.mode) = false then
    (.err "Invalid mode. Must be sticker, emoji, or preview" 400, fs)
  else
    let input_path := UPLOAD_FOLDER ++ "/" ++ senv.file_id ++ "_" ++ senv.secure_name
    let output_path := UPLOAD_FOLDER ++ "/" ++ senv.file_id ++ "_output.webm"
    -- line 497: file.save(input_path)
    let fs1 := fsWrite input_path senv.saved_size fs
    let original_size := senv.saved_size
    -- lines 504–509: the converter is called with mode and max_size only;
    -- the parsed crf is never passed (preview overrides the ceiling)
    match convert_gif_to_webm senv.conv input_path output_path form.mode
        (if form.mode == "preview" then 2048 else form.max_size) fs1 with
    | .error _ =>
      -- a converter exception reaches the bare except of lines 557-559
      (.err "Internal server error" 500, fs1)
    | .ok r =>
      if r.success && (fsGet output_path r.fs).isSome then
        let output_size := (fsGet output_path r.fs).getD 0
        match compression_ratio output_size original_size with
        | .error _ =>
          -- ZeroDivisionError propagates to the bare except
          (.err "Internal server error" 500, r.fs)
        | .ok ratio =>
          -- lines 544-545: remove the input, swallowing errors
          let fs2 := fsRemove input_path r.fs
          (.ok original_size output_size ratio form.mode form.max_size
             senv.file_id, fs2)
      else
        let fs2 := convertFailCleanup input_path output_path r.fs
        (.err ("Conversion failed. Could not meet " ++
               toString form.max_size ++ "KB limit.") 400, fs2)

/-! ## Helper lemmas about the scratch-filesystem model -/

theorem fsGet_fsRemove_self (p : String) (fs : Fs) :
    fsGet p (fsRemove p fs) = none := by
  induction fs with
  | nil => rfl
  | cons e rest ih =>
    by_cases h : e.1 = p
    · simpa [fsRemove, h] using ih
    · simpa [fsRemove, fsGet, h] using ih

theorem fsGet_fsRemove_ne (p q : String) (fs : Fs) (h : q ≠ p) :
    fsGet q (fsRemove p fs) = fsGet q fs := by
  induction fs with
  | nil => rfl
  | cons e rest ih =>
    by_cases he : e.1 = p
    · have hne : ¬ p = q := fun hpq => h hpq.symm
      simpa [fsRemove, fsGet, he, hne] using ih
    · have hne : ¬ p = q := fun hpq => h hpq.symm
      by_cases heq : e.1 = q
      · simp [fsRemove, fsGet, he, heq, h, hne]
      · simpa [fsRemove, fsGet, he, heq, h, hne] using ih

theorem fsGet_fsWrite_self (p : String) (sz : Nat) (fs : Fs) :
    fsGet p (fsWrite p sz fs) = some sz := by
  simp [fsWrite, fsGet]

theorem fsGet_fsWrite_ne (p q : String) (sz : Nat) (fs : Fs) (h : q ≠ p) :
    fsGet q (fsWrite p sz fs) = fsGet q fs := by
  have hne : ¬ p = q := fun he => h he.symm
  calc fsGet q (fsWrite p sz fs)
      = fsGet q (fsRemove p fs) := by simp [fsWrite, fsGet, hne]
    _ = fsGet q fs := fsGet_fsRemove_ne p q fs h

/-! ## Helper lemmas about the CRF search loop -/

/-- The loop writes no path other than `output_path`. -/
theorem searchCrfs_frame (enc : Nat → EncAttempt) (output_path : String)
    (m : Nat) (L : List Nat) (fs : Fs) (p : String) (h : p ≠ output_path) :
    fsGet p (searchCrfs enc output_path m L fs).fs = fsGet p fs := by
  induction L generalizing fs with
  | nil => rfl
  | cons c rest ih =>
    cases he : enc c with
    | err => simpa [searchCrfs, he] using ih fs
    | okNoFile => simpa [searchCrfs, he] using ih fs
    | ok size =>
      by_cases hs : size ≤ m
      · simpa [searchCrfs, he, hs] using fsGet_fsWrite_ne output_path p size fs h
      · have := ih (fsWrite output_path size fs)
        simpa [searchCrfs, he, hs, fsGet_fsWrite_ne output_path p size fs h]
          using this

/-- When some CRF in the list fits, the loop stops at the first fitting one
(in list order), returns success, and its attempt trace is exactly the
non-fitting prefix followed by that CRF. -/
theorem searchCrfs_find_some (enc : Nat → EncAttempt) (output_path : String)
    (m : Nat) (L : List Nat) (fs : Fs) (c₀ : Nat)
    (h : L.find? (fun c => crfFits enc m c) = some c₀) :
    ∃ fs', searchCrfs enc output_path m L fs =
      { success := true, selected := some c₀,
        attempted := L.takeWhile (fun c => !crfFits enc m c) ++ [c₀],
        fs := fs' } := by
  induction L generalizing fs with
  | nil => simp [List.find?] at h
  | cons c rest ih =>
    by_cases hc : crfFits enc m c
    · have hcc : c₀ = c := by
        rw [List.find?_cons_of_pos _ hc] at h
        exact (Option.some_inj.mp h).symm
      match he : enc c with
      | .err => simp [crfFits, he] at hc
      | .okNoFile => simp [crfFits, he] at hc
      | .ok size =>
        have hs : size ≤ m := by simpa [crfFits, he] using hc
        refine ⟨fsWrite output_path size fs, ?_⟩
        rw [hcc]
        simp [searchCrfs, he, hs, List.takeWhile_cons, hc]
    · have hrest : rest.find? (fun c => crfFits enc m c) = some c₀ := by
        rwa [List.find?_cons_of_neg _ (by simpa using hc)] at h
      have htw : (c :: rest).takeWhile (fun c => !crfFits enc m c) =
          c :: rest.takeWhile (fun c => !crfFits enc m c) := by
        simp [List.takeWhile_cons, hc]
      match he : enc c with
      | .err =>
        obtain ⟨fs', hres⟩ := ih fs hrest
        exact ⟨fs', by simp [searchCrfs, he, hres, htw]⟩
      | .okNoFile =>
        obtain ⟨fs', hres⟩ := ih fs hrest
        exact ⟨fs', by simp [searchCrfs, he, hres, htw]⟩
      | .ok size =>
        have hs : ¬ size ≤ m := by simpa [crfFits, he] using hc
        obtain ⟨fs', hres⟩ := ih (fsWrite output_path size fs) hrest
        exact ⟨fs', by simp [searchCrfs, he, hs, hres, htw]⟩

/-- When no CRF in the list fits, the loop attempts every CRF in list
order and returns failure with nothing selected. -/
theorem searchCrfs_all_fail (enc : Nat → EncAttempt) (output_path : String)
    (m : Nat) (L : List Nat) (fs : Fs)
    (h : ∀ c ∈ L, crfFits enc m c = false) :
    ∃ fs', searchCrfs enc output_path m L fs =
      { success := false, selected := none, attempted := L, fs := fs' } := by
  induction L generalizing fs with
  | nil => exact ⟨fs, rfl⟩
  | cons c rest ih =>
    have hc : crfFits enc m c = false := h c (List.mem_cons_self c rest)
    have hrest : ∀ c ∈ rest, crfFits enc m c = false := fun x hx =>
      h x (List.mem_cons_of_mem c hx)
    match he : enc c with
    | .err =>
      obtain ⟨fs', hres⟩ := ih fs hrest
      exact ⟨fs', by simp [searchCrfs, he, hres]⟩
    | .okNoFile =>
      obtain ⟨fs', hres⟩ := ih fs hrest
      exact ⟨fs', by simp [searchCrfs, he, hres]⟩
    | .ok size =>
      have hs : ¬ size ≤ m := by simpa [crfFits, he] using hc
      obtain ⟨fs', hres⟩ := ih (fsWrite output_path size fs) hrest
      exact ⟨fs', by simp [searchCrfs, he, hs, hres]⟩

/-! ## Helper lemmas: rounding bounds, diagnostics, unfolding the converter -/

theorem roundHalfUp_le (q : Rat) (n : Int) (h : q ≤ n) : roundHalfUp q ≤ n := by
  unfold roundHalfUp
  have h1 : ⌊q + 1 / 2⌋ < n + 1 := by
    rw [Int.floor_lt]
    push_cast
    linarith
  omega

theorem roundHalfUp_nonneg (q : Rat) (h : 0 ≤ q) : 0 ≤ roundHalfUp q := by
  unfold roundHalfUp
  have h1 : (0 : Int) ≤ ⌊q + 1 / 2⌋ := by
    rw [Int.le_floor]
    push_cast
    linarith
  omega

theorem roundEven_le (q : Rat) (n : Int) (h : q ≤ 2 * n) : roundEven q ≤ 2 * n := by
  unfold roundEven
  have h1 : roundHalfUp (q / 2) ≤ n := roundHalfUp_le _ n (by linarith)
  omega

/-- The two early-failure diagnostics of `convert_gif_to_webm` differ. -/
theorem msg_probe_fail_ne (p : String) : msg_probe_fail p ≠ msg_no_video p := by
  intro heq
  have h1 : (msg_probe_fail p).length = (msg_no_video p).length := congrArg _ heq
  simp only [msg_probe_fail, msg_no_video, String.length_append] at h1
  have h2 : ("Error: Could not get video information from ").length = 44 := by decide
  have h3 : ("Error: No video stream found in ").length = 32 := by decide
  omega

/-- `convert_gif_to_webm` writes no path other than its output path. -/
theorem convert_gif_to_webm_frame (env : Env) (ip op mode : String)
    (msk : Nat) (fs : Fs) (r : ConvResult)
    (h : convert_gif_to_webm env ip op mode msk fs = .ok r)
    (p : String) (hp : p ≠ op) : fsGet p r.fs = fsGet p fs := by
  unfold convert_gif_to_webm at h
  split at h
  · injection h with h2; subst h2; rfl
  · split at h
    · injection h with h2; subst h2; rfl
    · split at h
      · injection h with h2; subst h2; rfl
      · split at h
        · injection h
        · dsimp only at h
          split at h
          · injection h with h2; subst h2
            exact searchCrfs_frame env.enc op (msk * 1024) crf_values fs p hp
          · injection h with h2; subst h2
            exact searchCrfs_frame env.enc op (msk * 1024) crf_values fs p hp

/-- Unfolding of `convert_gif_to_webm` for a call that passes validation,
probing and stream lookup and reaches the CRF loop. -/
theorem convert_loop_eq (env : Env) (ip op mode : String) (msk : Nat)
    (fs : Fs) (info : MediaInfo) (vs : StreamInfo) (scl : String)
    (h₁ : env.inputExists = true) (h₂ : env.probe = some info)
    (h₃ : info.streams.find? (fun s => s.codec_type == "video") = some vs)
    (h₄ : calculate_scale_filter vs.width vs.height mode = .ok scl) :
    convert_gif_to_webm env ip op mode msk fs =
      (let lr := searchCrfs env.enc op (msk * 1024) crf_values fs
       let dl := duration_limit mode info.duration
       let vf := String.intercalate ","
         (if vs.r_frame_rate > 30 then [scl, "fps=30"] else [scl])
       if lr.success then
         .ok { success := true, selected := lr.selected,
               attempted := lr.attempted, tParam := some dl,
               videoFilter := some vf, fs := lr.fs, log := [] }
       else
         .ok { success := false, selected := lr.selected,
               attempted := lr.attempted, tParam := some dl,
               videoFilter := some vf, fs := lr.fs,
               log := ["Could not create file under " ++ toString msk ++
                       " KB limit"] }) := by
  unfold convert_gif_to_webm
  rw [h₂]
  dsimp only
  rw [h₃]
  dsimp only
  rw [h₄]
  simp [h₁]

/-! ## The claims -/

/-- Claim C1: for every source file, filter plan, size ceiling and the
configured quality sequence, if some CRF level produces an artifact of
size at most the ceiling (equality counts as success), the conversion
returns success having selected the first such level in the configured
ascending order [35, 40, 45, 50, 55, 60, 63], and attempts no level after
it — the attempt trace is exactly the non-fitting prefix followed by the
selected level. -/
theorem claim_C1 (env : Env) (ip op mode : String) (msk : Nat) (fs : Fs)
    (info : MediaInfo) (vs : StreamInfo) (scl : String) (c₀ : Nat)
    (h₁ : env.inputExists = true) (h₂ : env.probe = some info)
    (h₃ : info.streams.find? (fun s => s.codec_type == "video") = some vs)
    (h₄ : calculate_scale_filter vs.width vs.height mode = .ok scl)
    (h₅ : crf_values.find? (fun c => crfFits env.enc (msk * 1024) c) = some c₀) :
    crf_values = [35, 40, 45, 50, 55, 60, 63] ∧
    ∃ r, convert_gif_to_webm env ip op mode msk fs = .ok r ∧
      r.success = true ∧ r.selected = some c₀ ∧
      r.attempted =
        crf_values.takeWhile (fun c => !crfFits env.enc (msk * 1024) c) ++ [c₀] := by
  refine ⟨rfl, ?_⟩
  obtain ⟨fs', hres⟩ :=
    searchCrfs_find_some env.enc op (msk * 1024) crf_values fs c₀ h₅
  rw [convert_loop_eq env ip op mode msk fs info vs scl h₁ h₂ h₃ h₄]
  dsimp only
  rw [hres]
  exact ⟨_, rfl, rfl, rfl, rfl⟩

/-- Witness for claim C1: a stub encoder for which CRF 35 yields an
oversized artifact and CRF 40 errors selects CRF 45, the first fitting
level, attempting exactly [35, 40, 45]. -/
theorem claim_C1_witness :
    crf_values = [35, 40, 45, 50, 55, 60, 63] ∧
    ∃ r, convert_gif_to_webm
        ⟨true, some ⟨[⟨"video", 100, 100, 25⟩], 2⟩,
         fun c => if c == 45 then .ok 100 else
                  if c == 35 then .ok 999999 else .err⟩
        "in.gif" "out.webm" "sticker" 256 [] = .ok r ∧
      r.success = true ∧ r.selected = some 45 ∧
      r.attempted =
        crf_values.takeWhile
          (fun c => !crfFits
            (fun c => if c == 45 then .ok 100 else
                      if c == 35 then .ok 999999 else .err) (256 * 1024) c)
          ++ [45] :=
  claim_C1 _ "in.gif" "out.webm" "sticker" 256 []
    ⟨[⟨"video", 100, 100, 25⟩], 2⟩ ⟨"video", 100, 100, 25⟩ "scale=512:-2" 45
    rfl rfl (by decide) rfl (by decide)

/-- Claim C2: when every level in the seven-element sequence either fails
to encode or produces an artifact strictly larger than the ceiling, the
conversion returns failure (the code prints the could-not-meet-size
message "Could not create file under N KB limit" realizing the reason
"could not meet size ceiling"), and only after attempting all seven
levels in the exact configured order. -/
theorem claim_C2 (env : Env) (ip op mode : String) (msk : Nat) (fs : Fs)
    (info : MediaInfo) (vs : StreamInfo) (scl : String)
    (h₁ : env.inputExists = true) (h₂ : env.probe = some info)
    (h₃ : info.streams.find? (fun s => s.codec_type == "video") = some vs)
    (h₄ : calculate_scale_filter vs.width vs.height mode = .ok scl)
    (h₅ : ∀ c ∈ crf_values, crfFits env.enc (msk * 1024) c = false) :
    crf_values = [35, 40, 45, 50, 55, 60, 63] ∧
    ∃ r, convert_gif_to_webm env ip op mode msk fs = .ok r ∧
      r.success = false ∧ r.selected = none ∧
      r.attempted = crf_values ∧
      r.log = ["Could not create file under " ++ toString msk ++ " KB limit"] := by
  refine ⟨rfl, ?_⟩
  obtain ⟨fs', hres⟩ :=
    searchCrfs_all_fail env.enc op (msk * 1024) crf_values fs h₅
  rw [convert_loop_eq env ip op mode msk fs info vs scl h₁ h₂ h₃ h₄]
  dsimp only
  rw [hres]
  exact ⟨_, rfl, rfl, rfl, rfl, rfl⟩

/-- Witness for claim C2: a stub encoder always producing a 500000-byte
artifact against a 256 KB ceiling fails after attempting all seven levels
in order. -/
theorem claim_C2_witness :
    crf_values = [35, 40, 45, 50, 55, 60, 63] ∧
    ∃ r, convert_gif_to_webm
        ⟨true, some ⟨[⟨"video", 100, 100, 25⟩], 2⟩, fun _ => .ok 500000⟩
        "in.gif" "out.webm" "sticker" 256 [] = .ok r ∧
      r.success = false ∧ r.selected = none ∧
      r.attempted = crf_values ∧
      r.log = ["Could not create file under " ++ toString 256 ++ " KB limit"] :=
  claim_C2 _ "in.gif" "out.webm" "sticker" 256 []
    ⟨[⟨"video", 100, 100, 25⟩], 2⟩ ⟨"video", 100, 100, 25⟩ "scale=512:-2"
    rfl rfl (by decide) rfl (by decide)

/-- Claim C3: when the encode attempt at a level errors, the search
records the attempt and advances: the outcome (success flag, selected
level, final scratch state) over that level followed by the remaining
levels equals the outcome over the remaining levels alone — so a single
erroring level never by itself produces failure while untried levels
remain. -/
theorem claim_C3 (enc : Nat → EncAttempt) (op : String) (m c : Nat)
    (rest : List Nat) (fs : Fs) (h : enc c = .err) :
    (searchCrfs enc op m (c :: rest) fs).success =
      (searchCrfs enc op m rest fs).success ∧
    (searchCrfs enc op m (c :: rest) fs).selected =
      (searchCrfs enc op m rest fs).selected ∧
    (searchCrfs enc op m (c :: rest) fs).attempted =
      c :: (searchCrfs enc op m rest fs).attempted ∧
    (searchCrfs enc op m (c :: rest) fs).fs =
      (searchCrfs enc op m rest fs).fs := by
  simp [searchCrfs, h]

/-- Witness for claim C3: with CRF 35 erroring and CRF 40 fitting, the
search over [35, 40] has the same outcome as over [40] alone, with 35
recorded in the attempt trace. -/
theorem claim_C3_witness :
    (searchCrfs (fun c => if c == 35 then .err else .ok 100) "out.webm"
        262144 ([35, 40]) []).success =
      (searchCrfs (fun c => if c == 35 then .err else .ok 100) "out.webm"
        262144 [40] []).success ∧
    (searchCrfs (fun c => if c == 35 then .err else .ok 100) "out.webm"
        262144 ([35, 40]) []).selected =
      (searchCrfs (fun c => if c == 35 then .err else .ok 100) "out.webm"
        262144 [40] []).selected ∧
    (searchCrfs (fun c => if c == 35 then .err else .ok 100) "out.webm"
        262144 ([35, 40]) []).attempted =
      35 :: (searchCrfs (fun c => if c == 35 then .err else .ok 100) "out.webm"
        262144 [40] []).attempted ∧
    (searchCrfs (fun c => if c == 35 then .err else .ok 100) "out.webm"
        262144 ([35, 40]) []).fs =
      (searchCrfs (fun c => if c == 35 then .err else .ok 100) "out.webm"
        262144 [40] []).fs :=
  claim_C3 (fun c => if c == 35 then .err else .ok 100) "out.webm"
    262144 35 [40] [] (by decide)

/-- Claim C5: every ffmpeg invocation of one conversion receives as its
duration argument `min(sourceDuration, 3.0)` when the mode is sticker or
emoji, and exactly the source duration when the mode is preview. -/
theorem claim_C5 (env : Env) (ip op mode : String) (msk : Nat) (fs : Fs)
    (info : MediaInfo) (vs : StreamInfo) (scl : String)
    (h₁ : env.inputExists = true) (h₂ : env.probe = some info)
    (h₃ : info.streams.find? (fun s => s.codec_type == "video") = some vs)
    (h₄ : calculate_scale_filter vs.width vs.height mode = .ok scl) :
    ∃ r, convert_gif_to_webm env ip op mode msk fs = .ok r ∧
      r.tParam = some (duration_limit mode info.duration) ∧
      ((mode = "sticker" ∨ mode = "emoji") →
        duration_limit mode info.duration = min info.duration 3) ∧
      (mode = "preview" → duration_limit mode info.duration = info.duration) := by
  rw [convert_loop_eq env ip op mode msk fs info vs scl h₁ h₂ h₃ h₄]
  dsimp only
  by_cases hs : (searchCrfs env.enc op (msk * 1024) crf_values fs).success = true
  · rw [if_pos hs]
    refine ⟨_, rfl, rfl, ?_, ?_⟩
    · rintro (rfl | rfl) <;> simp [duration_limit]
    · rintro rfl; simp [duration_limit]
  · rw [if_neg hs]
    refine ⟨_, rfl, rfl, ?_, ?_⟩
    · rintro (rfl | rfl) <;> simp [duration_limit]
    · rintro rfl; simp [duration_limit]

/-- Witness for claim C5: a concrete sticker-mode conversion of a
5-second source receives duration argument min 5 3. -/
theorem claim_C5_witness :
    ∃ r, convert_gif_to_webm
        ⟨true, some ⟨[⟨"video", 100, 100, 25⟩], 5⟩, fun _ => .ok 100⟩
        "in.gif" "out.webm" "sticker" 256 [] = .ok r ∧
      r.tParam = some (duration_limit "sticker" (5 : Rat)) ∧
      (("sticker" = "sticker" ∨ "sticker" = "emoji") →
        duration_limit "sticker" (5 : Rat) = min (5 : Rat) 3) ∧
      ("sticker" = "preview" → duration_limit "sticker" (5 : Rat) = (5 : Rat)) :=
  claim_C5 _ "in.gif" "out.webm" "sticker" 256 []
    ⟨[⟨"video", 100, 100, 25⟩], 5⟩ ⟨"video", 100, 100, 25⟩ "scale=512:-2"
    rfl rfl (by decide) rfl

/-- A stub environment in which every CRF level encodes successfully but
every artifact is 300000 bytes, above a 256 KB ceiling. -/
def c4_env : Env :=
  ⟨true, some ⟨[⟨"video", 100, 100, 25⟩], 2⟩, fun _ => .ok 300000⟩

/-- Claim C4 counterexample: after a failed search (no level met the 256 KB
ceiling) the conversion returns with the last attempted level's 300000-byte
artifact still present at the output path in scratch storage — contrary to
the claim that no artifact from any attempted level remains once the search
returns.  (The artifact is only removed later, by the enclosing endpoint's
failure cleanup.) -/
theorem claim_C4_counterexample :
    (convert_gif_to_webm c4_env "in.gif" "out.webm" "sticker" 256 []).toOption.map
      (fun r => (r.success, fsGet "out.webm" r.fs)) = some (false, some 300000) := by
  rfl

/-- The second scratch state differs from the first only at path `op`. -/
def onlyTouches (op : String) (fs fs' : Fs) : Prop :=
  ∀ p, p ≠ op → fsGet p fs' = fsGet p fs

/-- Claim C4 as amended: every encode attempt of one search writes only the
single caller-supplied output path, so when the search ends in the failed
outcome at most that one artifact remains; after the enclosing endpoint's
failure-path cleanup (which removes the input and then the output path), no
artifact produced by any attempted level remains in scratch storage. -/
theorem claim_C4 (env : Env) (ip op mode : String) (msk : Nat) (fs : Fs)
    (r : ConvResult) (hio : ip ≠ op)
    (h : convert_gif_to_webm env ip op mode msk fs = .ok r)
    (_hfail : r.success = false) (hin : fsGet ip fs ≠ none) :
    fsGet op (convertFailCleanup ip op r.fs) = none ∧
    onlyTouches op fs r.fs := by
  have hframe : onlyTouches op fs r.fs := fun p hp =>
    convert_gif_to_webm_frame env ip op mode msk fs r h p hp
  refine ⟨?_, hframe⟩
  have hin' : fsGet ip r.fs ≠ none := by rw [hframe ip hio]; exact hin
  unfold convertFailCleanup
  cases hg : fsGet ip r.fs with
  | none => exact absurd hg hin'
  | some sz => exact fsGet_fsRemove_self op (fsRemove ip r.fs)

/-- Witness for claim C4 (amended): in the all-oversized stub environment,
with the input staged in scratch storage, the endpoint failure cleanup
leaves no file at the output path, and the search touched no path besides
the output path. -/
theorem claim_C4_witness :
    fsGet "out.webm" (convertFailCleanup "in.gif" "out.webm"
      ({ success := false, selected := none,
         attempted := [35, 40, 45, 50, 55, 60, 63],
         tParam := some (min 2 3), videoFilter := some "scale=512:-2",
         fs := [("out.webm", 300000), ("in.gif", 5)],
         log := ["Could not create file under 256 KB limit"] : ConvResult}).fs) = none ∧
    onlyTouches "out.webm" [("in.gif", 5)]
      ({ success := false, selected := none,
         attempted := [35, 40, 45, 50, 55, 60, 63],
         tParam := some (min 2 3), videoFilter := some "scale=512:-2",
         fs := [("out.webm", 300000), ("in.gif", 5)],
         log := ["Could not create file under 256 KB limit"] : ConvResult}).fs :=
  claim_C4 c4_env "in.gif" "out.webm" "sticker" 256 [("in.gif", 5)] _
    (by decide) rfl rfl (by decide)

/-! ## Scale-filter claims -/

theorem ratDiv_le_of_le (k : Rat) (a b : Nat) (hk : 0 ≤ k) (hb : 1 ≤ b)
    (hab : a ≤ b) : k * a / b ≤ k := by
  have hb' : (0 : Rat) < b := by exact_mod_cast hb
  rw [div_le_iff₀ hb']
  have hc : (a : Rat) ≤ b := by exact_mod_cast hab
  nlinarith

theorem ratDiv_nonneg (k : Rat) (a b : Nat) (hk : 0 ≤ k) :
    0 ≤ k * a / b := by positivity

theorem roundEven_le_512 (q : Rat) (h : q ≤ 512) : roundEven q ≤ 512 := by
  have h2 : roundEven q ≤ 2 * 256 := roundEven_le q 256 (by push_cast; linarith)
  omega

theorem even_roundEven (q : Rat) : Even (roundEven q) :=
  ⟨roundHalfUp (q / 2), by unfold roundEven; ring⟩

/-- Claim C6: in sticker (or preview) mode, for a source with positive
width and height the planned filter is one of the two pad-free scale
expressions; when width is at least height the output width is 512 and the
height is scaled proportionally and rounded even, otherwise the output
height is 512 and the width is scaled proportionally and rounded even; so
the larger output dimension equals 512 and the smaller is at most 512 and
even. -/
theorem claim_C6 (w h : Nat) (mode : String)
    (hm : mode = "sticker" ∨ mode = "preview") (hw : 1 ≤ w) (hh : 1 ≤ h) :
    ∃ f ow oh, calculate_scale_filter w h mode = .ok f ∧
      (f = "scale=512:-2" ∨ f = "scale=-2:512") ∧
      apply_scale_filter w h f = some (ow, oh) ∧
      (h ≤ w → ow = 512 ∧ oh = roundEven ((512 * h : Rat) / w)) ∧
      (w < h → oh = 512 ∧ ow = roundEven ((512 * w : Rat) / h)) ∧
      max ow oh = 512 ∧ min ow oh ≤ 512 ∧ Even (min ow oh) := by
  have hmode : (mode == "emoji") = false := by
    rcases hm with rfl | rfl <;> rfl
  have hh0 : (h == 0) = false := by
    simp only [beq_eq_false_iff_ne, ne_eq]
    omega
  by_cases hwge : h ≤ w
  · refine ⟨"scale=512:-2", 512, roundEven ((512 * h : Rat) / w),
      ?_, Or.inl rfl, ?_, fun _ => ⟨rfl, rfl⟩,
      fun hlt => absurd hwge (not_le.mpr hlt), ?_, ?_, ?_⟩
    · simp [calculate_scale_filter, hmode, hh0, hwge]
    · simp [apply_scale_filter]
    · have hb : roundEven ((512 * h : Rat) / w) ≤ 512 :=
        roundEven_le_512 _ (ratDiv_le_of_le 512 h w (by norm_num) hw hwge)
      omega
    · have hb : roundEven ((512 * h : Rat) / w) ≤ 512 :=
        roundEven_le_512 _ (ratDiv_le_of_le 512 h w (by norm_num) hw hwge)
      omega
    · have hb : roundEven ((512 * h : Rat) / w) ≤ 512 :=
        roundEven_le_512 _ (ratDiv_le_of_le 512 h w (by norm_num) hw hwge)
      rcases even_roundEven ((512 * h : Rat) / w) with ⟨k, hk⟩
      exact ⟨if roundEven ((512 * h : Rat) / w) ≤ 512 then k else 256, by
        rw [min_eq_right hb, if_pos hb]
        exact hk⟩
  · have hlt : w < h := by omega
    have hwle : w ≤ h := le_of_lt hlt
    have hnot : ¬ w ≥ h := by omega
    refine ⟨"scale=-2:512", roundEven ((512 * w : Rat) / h), 512,
      ?_, Or.inr rfl, ?_, fun hc => absurd hc (by omega),
      fun _ => ⟨rfl, rfl⟩, ?_, ?_, ?_⟩
    · simp [calculate_scale_filter, hmode, hh0, hnot]
    · simp [apply_scale_filter]
    · have hb : roundEven ((512 * w : Rat) / h) ≤ 512 :=
        roundEven_le_512 _ (ratDiv_le_of_le 512 w h (by norm_num) hh hwle)
      omega
    · have hb : roundEven ((512 * w : Rat) / h) ≤ 512 :=
        roundEven_le_512 _ (ratDiv_le_of_le 512 w h (by norm_num) hh hwle)
      omega
    · have hb : roundEven ((512 * w : Rat) / h) ≤ 512 :=
        roundEven_le_512 _ (ratDiv_le_of_le 512 w h (by norm_num) hh hwle)
      rcases even_roundEven ((512 * w : Rat) / h) with ⟨k, hk⟩
      exact ⟨if roundEven ((512 * w : Rat) / h) ≤ 512 then k else 256, by
        rw [min_eq_left hb, if_pos hb]
        exact hk⟩

/-- Witness for claim C6: a 300 by 200 source in sticker mode. -/
theorem claim_C6_witness :
    ∃ f ow oh, calculate_scale_filter 300 200 "sticker" = .ok f ∧
      (f = "scale=512:-2" ∨ f = "scale=-2:512") ∧
      apply_scale_filter 300 200 f = some (ow, oh) ∧
      ((200 : Nat) ≤ 300 → ow = 512 ∧ oh = roundEven ((512 * 200 : Rat) / 300)) ∧
      ((300 : Nat) < 200 → oh = 512 ∧ ow = roundEven ((512 * 300 : Rat) / 200)) ∧
      max ow oh = 512 ∧ min ow oh ≤ 512 ∧ Even (min ow oh) :=
  claim_C6 300 200 "sticker" (Or.inl rfl) (by decide) (by decide)

/-- Claim C7 counterexample: the claim's decrease-only fitting — the
spec's "downscale only, never upscale beyond original" — fails on the
planned filter: for a 40 by 40 source the emitted emoji filter scales the
image up to 100 by 100, because the encoder's decrease option shrinks the
target box, not the image, while the spec's downscale-only fitting would
leave the image at 40 by 40. -/
theorem claim_C7_counterexample :
    calculate_scale_filter 40 40 "emoji" = .ok emoji_filter ∧
    (apply_emoji_filter emoji_filter 40 40).map (fun pf => (pf.imgW, pf.imgH))
      = some (100, 100) ∧
    fit_decrease_spec 40 40 = (40, 40) ∧
    fit_decrease 40 40 ≠ fit_decrease_spec 40 40 := by
  have h2 : fit_decrease 40 40 = (100, 100) := by
    unfold fit_decrease roundHalfUp
    norm_num
  have h3 : fit_decrease_spec 40 40 = (40, 40) := rfl
  refine ⟨rfl, ?_, h3, ?_⟩
  · simp [apply_emoji_filter, h2]
  · rw [h2, h3]
    decide

/-- Claim C7 as amended: in emoji mode the planned filter is the fixed
fit-then-pad expression: the 100 by 100 target box is decreased as needed
to preserve the source aspect ratio, so the scaled image fits within
100 by 100 and fills it in one dimension (a source smaller than the box
is scaled up to it — the encoder's decrease applies to the box, not the
image, so the spec's never-upscale clause does not hold); the image is
then padded to an exactly 100 by 100 canvas, centered; the padding color
is the constant `black@0` — black at alpha zero, i.e. the fully
transparent option of the claim (the filter string is the same for every
request, so the color in force is always the transparent one). -/
theorem claim_C7 (w h : Nat) (hw : 1 ≤ w) (hh : 1 ≤ h) :
    calculate_scale_filter w h "emoji" = .ok emoji_filter ∧
    ∃ pf, apply_emoji_filter emoji_filter w h = some pf ∧
      pf.canvasW = 100 ∧ pf.canvasH = 100 ∧
      0 ≤ pf.imgW ∧ pf.imgW ≤ 100 ∧ 0 ≤ pf.imgH ∧ pf.imgH ≤ 100 ∧
      (pf.imgW = 100 ∨ pf.imgH = 100) ∧
      pf.offX = (100 - pf.imgW) / 2 ∧ pf.offY = (100 - pf.imgH) / 2 ∧
      pf.padColor = "black@0" := by
  refine ⟨rfl, ?_⟩
  by_cases hwge : h ≤ w
  · have hfit : fit_decrease w h = (100, roundHalfUp ((100 * h : Rat) / w)) := by
      simp [fit_decrease, hwge]
    refine ⟨⟨100, 100, 100, roundHalfUp ((100 * h : Rat) / w),
        (100 - 100) / 2, (100 - roundHalfUp ((100 * h : Rat) / w)) / 2, "black@0"⟩,
      ?_, rfl, rfl, by norm_num, by norm_num, ?_, ?_, Or.inl rfl, rfl, rfl, rfl⟩
    · simp [apply_emoji_filter, hfit]
    · exact roundHalfUp_nonneg _ (ratDiv_nonneg 100 h w (by norm_num))
    · exact roundHalfUp_le _ 100
        (by exact_mod_cast ratDiv_le_of_le 100 h w (by norm_num) hw hwge)
  · have hlt : ¬ h ≤ w := hwge
    have hwle : w ≤ h := by omega
    have hfit : fit_decrease w h = (roundHalfUp ((100 * w : Rat) / h), 100) := by
      simp [fit_decrease, hlt]
    refine ⟨⟨100, 100, roundHalfUp ((100 * w : Rat) / h), 100,
        (100 - roundHalfUp ((100 * w : Rat) / h)) / 2, (100 - 100) / 2, "black@0"⟩,
      ?_, rfl, rfl, ?_, ?_, by norm_num, by norm_num, Or.inr rfl, rfl, rfl, rfl⟩
    · simp [apply_emoji_filter, hfit]
    · exact roundHalfUp_nonneg _ (ratDiv_nonneg 100 w h (by norm_num))
    · exact roundHalfUp_le _ 100
        (by exact_mod_cast ratDiv_le_of_le 100 w h (by norm_num) hh hwle)

/-- Witness for claim C7 (amended): a 37 by 253 source in emoji mode. -/
theorem claim_C7_witness :
    calculate_scale_filter 37 253 "emoji" = .ok emoji_filter ∧
    ∃ pf, apply_emoji_filter emoji_filter 37 253 = some pf ∧
      pf.canvasW = 100 ∧ pf.canvasH = 100 ∧
      0 ≤ pf.imgW ∧ pf.imgW ≤ 100 ∧ 0 ≤ pf.imgH ∧ pf.imgH ≤ 100 ∧
      (pf.imgW = 100 ∨ pf.imgH = 100) ∧
      pf.offX = (100 - pf.imgW) / 2 ∧ pf.offY = (100 - pf.imgH) / 2 ∧
      pf.padColor = "black@0" :=
  claim_C7 37 253 (by decide) (by decide)

/-! ## Endpoint claims -/

/-- Claim C8 (code bug in the source): the diagnostic compression-ratio
expression `round((1 - output_size / original_size) * 100, 1)` has no
division-by-zero guard; with a zero-byte input it raises
`ZeroDivisionError`, and a successful conversion of a zero-byte staged
input therefore makes the endpoint answer 500 Internal server error
instead of reporting an undefined ratio. -/
theorem claim_C8 :
    compression_ratio 1000 0 = .error "ZeroDivisionError" ∧
    (convert_gif
        ⟨true, true, true, "a.gif", some 100, "id", "a.gif", 0,
         ⟨true, some ⟨[⟨"video", 100, 100, 25⟩], 2⟩, fun _ => .ok 1000⟩⟩
        ⟨256, "sticker", 35⟩ []).1 = .err "Internal server error" 500 :=
  ⟨rfl, rfl⟩

/-- A request context whose probe fails (unreadable or malformed probe
output). -/
def c9_probe_fail_env : SrvEnv :=
  ⟨true, true, true, "a.gif", some 100, "id", "a.gif", 500,
   ⟨true, none, fun _ => .ok 1000⟩⟩

/-- A request context whose probe succeeds but whose stream list contains
no video stream. -/
def c9_no_video_env : SrvEnv :=
  ⟨true, true, true, "a.gif", some 100, "id", "a.gif", 500,
   ⟨true, some ⟨[], 2⟩, fun _ => .ok 1000⟩⟩

/-- Claim C9 counterexample: a no-video-stream input and a
failed-probe input produce the very same caller-visible outcome — the
converter returns the same failure value and the endpoint answers the
identical 400 response — so the no-video-stream failure is not
distinguishable by the caller from a generic probe failure. -/
theorem claim_C9_counterexample :
    (convert_gif c9_no_video_env ⟨256, "sticker", 35⟩ []).1 =
      (convert_gif c9_probe_fail_env ⟨256, "sticker", 35⟩ []).1 ∧
    (convert_gif c9_no_video_env ⟨256, "sticker", 35⟩ []).1 =
      .err "Conversion failed. Could not meet 256KB limit." 400 :=
  ⟨rfl, rfl⟩

/-- Claim C9 as amended: on an input with no video stream the conversion
fails with the same returned failure value as on a generic probe failure;
the two cases are distinguished only in the printed diagnostic message
("No video stream found in ..." against "Could not get video information
from ..."), which differ, but are not part of the value returned to the
caller. -/
theorem claim_C9 (env₁ env₂ : Env) (ip op mode : String) (msk : Nat)
    (fs : Fs) (info : MediaInfo)
    (h₁ : env₁.inputExists = true) (h₂ : env₁.probe = none)
    (h₃ : env₂.inputExists = true) (h₄ : env₂.probe = some info)
    (h₅ : info.streams.find? (fun s => s.codec_type == "video") = none) :
    ∃ r₁ r₂,
      convert_gif_to_webm env₁ ip op mode msk fs = .ok r₁ ∧
      convert_gif_to_webm env₂ ip op mode msk fs = .ok r₂ ∧
      r₁.success = false ∧ r₂.success = false ∧ r₁.success = r₂.success ∧
      r₁.log = [msg_probe_fail ip] ∧ r₂.log = [msg_no_video ip] ∧
      msg_probe_fail ip ≠ msg_no_video ip := by
  have e₁ : convert_gif_to_webm env₁ ip op mode msk fs =
      .ok ⟨false, none, [], none, none, fs, [msg_probe_fail ip]⟩ := by
    unfold convert_gif_to_webm
    rw [h₂]
    simp [h₁]
  have e₂ : convert_gif_to_webm env₂ ip op mode msk fs =
      .ok ⟨false, none, [], none, none, fs, [msg_no_video ip]⟩ := by
    unfold convert_gif_to_webm
    rw [h₄]
    dsimp only
    rw [h₅]
    simp [h₃]
  exact ⟨_, _, e₁, e₂, rfl, rfl, rfl, rfl, rfl, msg_probe_fail_ne ip⟩

/-- Witness for claim C9 (amended): a concrete failed probe against a
concrete empty stream list. -/
theorem claim_C9_witness :
    ∃ r₁ r₂,
      convert_gif_to_webm ⟨true, none, fun _ => .ok 100⟩
        "in.gif" "out.webm" "sticker" 256 [] = .ok r₁ ∧
      convert_gif_to_webm ⟨true, some ⟨[], 2⟩, fun _ => .ok 100⟩
        "in.gif" "out.webm" "sticker" 256 [] = .ok r₂ ∧
      r₁.success = false ∧ r₂.success = false ∧ r₁.success = r₂.success ∧
      r₁.log = [msg_probe_fail "in.gif"] ∧ r₂.log = [msg_no_video "in.gif"] ∧
      msg_probe_fail "in.gif" ≠ msg_no_video "in.gif" :=
  claim_C9 ⟨true, none, fun _ => .ok 100⟩ ⟨true, some ⟨[], 2⟩, fun _ => .ok 100⟩
    "in.gif" "out.webm" "sticker" 256 [] ⟨[], 2⟩ rfl rfl rfl rfl rfl

/-- Claim C10: two /api/convert requests identical except for the value of
the crf form field (both parsing as integers) behave identically — the
endpoint and conversion result (response and final scratch state) do not
depend on the crf field, which is parsed but never passed to the
converter, and the converter always works through the fixed sequence
beginning at 35. -/
theorem claim_C10 (senv : SrvEnv) (ms : Nat) (md : String) (c₁ c₂ : Int)
    (fs : Fs) :
    convert_gif senv ⟨ms, md, c₁⟩ fs = convert_gif senv ⟨ms, md, c₂⟩ fs ∧
    crf_values = [35, 40, 45, 50, 55, 60, 63] :=
  ⟨rfl, rfl⟩

end GifWebm
